import Mathlib

/-!
Verification of the batch-conversion core (directory scanning, job/task
modelling, progress aggregation, worker stop semantics) of the HEICtoJPG
repository, as a shallow embedding in Lean 4.

Filesystem paths are modelled as their component lists (pathlib `Path.parts`);
the filesystem itself is an abstract structure of query functions. Python
exceptions are modelled with `Except`; `None` with `Option`. Wall-clock
timestamps (`ConversionResult.timestamp`) and logging calls are side effects
outside the model and are omitted.
-/

namespace HEIC

/-- A filesystem path, modelled as its list of components
(pathlib `Path.parts`). -/
structure Path where
  parts : List String
deriving DecidableEq

/-- pathlib `Path.parent`: the path without its final component. -/
def Path.parent (p : Path) : Path := ⟨p.parts.dropLast⟩

/-- pathlib `Path.name`: the final component (empty for the empty path). -/
def Path.name (p : Path) : String := p.parts.getLast?.getD ""

/-- Index of the last dot of the name, following CPython
`name.rfind` ( `'.'` ); when absent the computation yields `0`, which the
`0 < i` guard below rejects, as CPython rejects `rfind`having returned `-1`
or `0`. -/
def lastDot (cs : List Char) : Nat :=
  cs.length - 1 - (cs.reverse.indexOf '.')

/-- pathlib `PurePath.stem`: the final component without its extension;
CPython keeps the whole name unless `0 < i < len(name) - 1`. -/
def Path.stem (p : Path) : String :=
  let n := p.name
  let cs := n.toList
  let i := lastDot cs
  if 0 < i ∧ i < cs.length - 1 then String.mk (cs.take i) else n

/-- pathlib `PurePath.suffix`: the extension of the final component,
including the dot; empty unless `0 < i < len(name) - 1`. -/
def Path.ext (p : Path) : String :=
  let n := p.name
  let cs := n.toList
  let i := lastDot cs
  if 0 < i ∧ i < cs.length - 1 then String.mk (cs.drop i) else ""

/-- pathlib `/` on two relative paths: component concatenation. -/
def Path.join (p q : Path) : Path := ⟨p.parts ++ q.parts⟩

/-- pathlib `dir / filename` for a plain filename string. -/
def Path.joinName (p : Path) (n : String) : Path := ⟨p.parts ++ [n]⟩

/-- Helper for `Path.relative_to`: strips `base` components off the front,
`none` when `base` is not an initial segment. -/
def relParts : List String → List String → Option (List String)
  | [], ps => some ps
  | _ :: _, [] => none
  | b :: bs, q :: ps => if b = q then relParts bs ps else none

/-- pathlib `Path.relative_to(base)`; `none` models the `ValueError` raised
when the path is not below `base`. -/
def Path.relative_to (p base : Path) : Option Path :=
  (relParts base.parts p.parts).map Path.mk

/-- Render a path for error messages (pathlib `str`). -/
def pathStr (p : Path) : String := String.intercalate "/" p.parts

/-- `FileScanner.HEIC_EXTENSIONS` in `src/core/file_scanner.py`. -/
def HEIC_EXTENSIONS : List String := [".heic", ".heif"]

/-- `item.suffix.loweredCase in HEIC_EXTENSIONS` from the scanner loop. -/
def isHeicExt (p : Path) : Bool := HEIC_EXTENSIONS.contains p.ext.toLower

/-- `ConversionTask` from `src/models/conversion_task.py`. The quality is an
integer; validation lives in `mkConversionTask` below. -/
structure ConversionTask where
  input_path : Path
  output_path : Path
  quality : Int
  delete_source : Bool
  preserve_exif : Bool
deriving DecidableEq

/-- `ConversionTask.__post_init__`: raises `ValueError` unless
`0 <= quality <= 100`; modelled as a fallible smart constructor. -/
def mkConversionTask (input_path output_path : Path) (quality : Int)
    (delete_source preserve_exif : Bool) : Except String ConversionTask :=
  if 0 ≤ quality ∧ quality ≤ 100 then
    Except.ok ⟨input_path, output_path, quality, delete_source, preserve_exif⟩
  else
    Except.error ("Quality must be between 0 and 100, got " ++ toString quality)

/-- `ConversionResult` from `src/models/conversion_result.py`
(the wall-clock `timestamp` field is omitted from the model). -/
structure ConversionResult where
  success : Bool
  input_path : Path
  output_path : Option Path := none
  error : Option String := none
  file_size_before : Option Nat := none
  file_size_after : Option Nat := none
  conversion_time : Option ℚ := none
deriving DecidableEq

/-- Python truthiness of an optional size: `None` and `0` are falsy. -/
def optSizeTruthy : Option Nat → Bool
  | none => false
  | some n => decide (n ≠ 0)

/-- `ConversionResult.compression_ratio`: `file_size_after / file_size_before`
when `success and file_size_before and file_size_after` (Python truthiness),
else `None`. -/
def ConversionResult.compression_ratio (r : ConversionResult) : Option ℚ :=
  if r.success && optSizeTruthy r.file_size_before && optSizeTruthy r.file_size_after then
    some ((r.file_size_after.getD 0 : ℚ) / (r.file_size_before.getD 0 : ℚ))
  else none

/-- `ConversionResult.size_saved_mb`:
`(file_size_before - file_size_after) / (1024 * 1024)` under the same
truthiness guard, else `None`. -/
def ConversionResult.size_saved_mb (r : ConversionResult) : Option ℚ :=
  if r.success && optSizeTruthy r.file_size_before && optSizeTruthy r.file_size_after then
    some (((r.file_size_before.getD 0 : ℚ) - (r.file_size_after.getD 0 : ℚ)) / (1024 * 1024))
  else none

/-- `ScanResult` from `src/core/file_scanner.py`; `heic_by_directory` is the
defaultdict modelled as an association list. -/
structure ScanResult where
  root_path : Path
  heic_files : List Path := []
  total_files_scanned : Nat := 0
  total_directories_scanned : Nat := 0
  heic_by_directory : List (Path × Nat) := []
  total_size_bytes : Nat := 0
  scan_errors : List (Path × String) := []
deriving DecidableEq

/-- `ScanResult.heic_count` property. -/
def ScanResult.heic_count (s : ScanResult) : Nat := s.heic_files.length

/-- defaultdict increment `heic_by_directory[item.parent] += 1`. -/
def bumpDir : List (Path × Nat) → Path → List (Path × Nat)
  | [], d => [(d, 1)]
  | (k, v) :: rest, d =>
      if k = d then (k, v + 1) :: rest else (k, v) :: bumpDir rest d

/-- Abstract filesystem consumed by the scanner: existence and kind queries,
the entry list produced by `rglob`, `stat` byte sizes (`none` models an
`OSError`), and per-entry access errors (`some msg` models the
`PermissionError`/`OSError` raised while inspecting the entry). -/
structure FileSystem where
  pathExists : Path → Bool
  isDir : Path → Bool
  isFile : Path → Bool
  entries : Path → List Path
  statSize : Path → Option Nat
  accessErr : Path → Option String

/-- Body of the `for item in directory.rglob` loop of
`FileScanner.scan_directory`: an access error records the entry in
`scan_errors` and continues; a regular file bumps `total_files_scanned` and,
when its lowered extension is eligible, is appended to `heic_files`, bumps its
directory count and (when `stat` succeeds) the cumulative size; a directory
bumps `total_directories_scanned`. -/
def scan_step (fs : FileSystem) (res : ScanResult) (item : Path) : ScanResult :=
  match fs.accessErr item with
  | some e => { res with scan_errors := res.scan_errors ++ [(item, e)] }
  | none =>
    if fs.isFile item then
      let res1 := { res with total_files_scanned := res.total_files_scanned + 1 }
      if isHeicExt item then
        let res2 := { res1 with
          heic_files := res1.heic_files ++ [item],
          heic_by_directory := bumpDir res1.heic_by_directory item.parent }
        match fs.statSize item with
        | some s => { res2 with total_size_bytes := res2.total_size_bytes + s }
        | none => res2
      else res1
    else if fs.isDir item then
      { res with total_directories_scanned := res.total_directories_scanned + 1 }
    else res

/-- The two fatal scan errors (`FileNotFoundError`, `NotADirectoryError`). -/
inductive ScanError where
  | notFound (msg : String)
  | notADirectory (msg : String)
deriving DecidableEq

/-- `FileScanner.scan_directory`: raises `FileNotFoundError` when the root
does not exist, `NotADirectoryError` when it is not a directory, otherwise
folds `scan_step` over the `rglob` entries starting from a fresh result. -/
def scan_directory (fs : FileSystem) (directory : Path) : Except ScanError ScanResult :=
  if fs.pathExists directory = false then
    Except.error (ScanError.notFound ("Directory not found: " ++ pathStr directory))
  else if fs.isDir directory = false then
    Except.error (ScanError.notADirectory ("Not a directory: " ++ pathStr directory))
  else
    Except.ok ((fs.entries directory).foldl (scan_step fs) { root_path := directory })

/-- `HEICConverter.create_output_path`: default the output directory to the
input's parent, then join the input's stem with the `.jpg` extension. -/
def create_output_path (input_path : Path) (output_dir : Option Path) : Path :=
  let od := output_dir.getD input_path.parent
  od.joinName (input_path.stem ++ ".jpg")

/-- `BatchStatus` enum from `src/core/batch_manager.py`. -/
inductive BatchStatus where
  | queued
  | scanning
  | processing
  | pausedSt
  | completed
  | failed
  | cancelled
deriving DecidableEq

/-- `BatchJob` dataclass from `src/core/batch_manager.py` with its field
defaults. -/
structure BatchJob where
  id : String
  folder_path : Path
  status : BatchStatus := BatchStatus.queued
  output_dir : Option Path := none
  scan_result : Option ScanResult := none
  total_files : Nat := 0
  processed_files : Nat := 0
  successful : Nat := 0
  failed : Nat := 0
  quality : Int := 85
  delete_source : Bool := false
  preserve_exif : Bool := true
  preserve_folder_structure : Bool := true
  results : List ConversionResult := []
deriving DecidableEq

/-- `BatchJob.is_complete` property: terminal statuses. -/
def BatchJob.is_complete (j : BatchJob) : Bool :=
  j.status = BatchStatus.completed ∨ j.status = BatchStatus.failed ∨
    j.status = BatchStatus.cancelled

/-- `BatchManager.scan_job`: sets the status to `SCANNING`, runs the scanner
(a scanner exception propagates, leaving the job in `SCANNING`), then stores
the scan result, overwrites `total_files` with the scanner's count and sets
the status back to `QUEUED`. Returns the updated job next to the outcome. -/
def scan_job (fs : FileSystem) (job : BatchJob) : BatchJob × Except ScanError ScanResult :=
  match scan_directory fs job.folder_path with
  | Except.error e => ({ job with status := BatchStatus.scanning }, Except.error e)
  | Except.ok sr =>
      ({ job with
          scan_result := some sr,
          total_files := sr.heic_count,
          status := BatchStatus.queued }, Except.ok sr)

/-- Body of the `for heic_file in job.scan_result.heic_files` loop of
`BatchManager.generate_tasks`: pick the output directory (output root plus
the parent's path relative to the source root when structure is preserved;
the bare output root when not; the file's own parent when no output root is
set), derive the output path, and build the validated task. `Except.error`
models the `ValueError` arms (`relative_to` on a stray file, task
validation). -/
def taskFor (job : BatchJob) (heic_file : Path) : Except String ConversionTask :=
  match job.output_dir with
  | some od =>
      if job.preserve_folder_structure then
        match heic_file.parent.relative_to job.folder_path with
        | some relative_path =>
            mkConversionTask heic_file
              (create_output_path heic_file (some (od.join relative_path)))
              job.quality job.delete_source job.preserve_exif
        | none => Except.error "ValueError: relative_to outside source root"
      else
        mkConversionTask heic_file (create_output_path heic_file (some od))
          job.quality job.delete_source job.preserve_exif
  | none =>
      mkConversionTask heic_file
        (create_output_path heic_file (some heic_file.parent))
        job.quality job.delete_source job.preserve_exif

/-- A generator loop collecting one value per element, stopping at the first
raised exception. -/
def exceptMapM {ε α β : Type} (g : α → Except ε β) : List α → Except ε (List β)
  | [] => Except.ok []
  | x :: xs =>
    match g x with
    | Except.error e => Except.error e
    | Except.ok y =>
      match exceptMapM g xs with
      | Except.error e => Except.error e
      | Except.ok ys => Except.ok (y :: ys)

/-- `BatchManager.generate_tasks`: raises `ValueError` when the job has no
scan result; otherwise overwrites `job.total_files` with the length of the
scanned file list and yields one task per scanned file. The updated job is
returned next to the task list. -/
def generate_tasks (job : BatchJob) : Except String (BatchJob × List ConversionTask) :=
  match job.scan_result with
  | none => Except.error ("Job " ++ job.id ++ " has not been scanned yet")
  | some sr =>
      let job1 := { job with total_files := sr.heic_files.length }
      match exceptMapM (taskFor job1) sr.heic_files with
      | Except.error e => Except.error e
      | Except.ok tasks => Except.ok (job1, tasks)

/-- `BatchManager.update_job_progress`: bump `processed_files`, bump
`successful` or `failed` according to `result.success`, append the result,
and once `processed_files` reaches `total_files` set the status to
`COMPLETED` (the Python source assigns `COMPLETED` in both arms of its inner
`failed > 0` conditional). -/
def update_job_progress (job : BatchJob) (result : ConversionResult) : BatchJob :=
  let job1 := { job with processed_files := job.processed_files + 1 }
  let job2 :=
    if result.success then { job1 with successful := job1.successful + 1 }
    else { job1 with failed := job1.failed + 1 }
  let job3 := { job2 with results := job2.results ++ [result] }
  if job3.total_files ≤ job3.processed_files then
    { job3 with status := BatchStatus.completed }
  else job3

/-- A sequence of `update_job_progress` calls delivered to one job. -/
def run_updates (job : BatchJob) (rs : List ConversionResult) : BatchJob :=
  rs.foldl update_job_progress job

/-- The synthesized failure of `WorkerPool._process_task_with_pause` when the
stop flag is observed before the adapter runs. -/
def stoppedResult (task : ConversionTask) : ConversionResult :=
  { success := false,
    input_path := task.input_path,
    error := some "Processing stopped by user" }

/-- `WorkerPool._process_task_with_pause` after the pause gate: when the
stop flag is set, return the synthesized failure without touching the
adapter; otherwise run the adapter. The second component records whether the
adapter was invoked. -/
def process_task_with_pause (stopFlag : Bool)
    (convert : ConversionTask → ConversionResult) (task : ConversionTask) :
    ConversionResult × Bool :=
  if stopFlag then (stoppedResult task, false)
  else (convert task, true)

section Fixtures

/-- Sample source root. -/
def pRoot : Path := ⟨["root"]⟩

/-- Sample successful conversion result. -/
def res_ok : ConversionResult := { success := true, input_path := ⟨["root", "a.heic"]⟩ }

/-- Sample failed conversion result. -/
def res_fail : ConversionResult :=
  { success := false, input_path := ⟨["root", "b.heic"]⟩, error := some "boom" }

/-- A fresh job with two files expected and all counters at zero. -/
def jobZero : BatchJob := { id := "j0", folder_path := pRoot, total_files := 2 }

/-- A fresh job with a single file expected. -/
def jobOne : BatchJob := { id := "j1", folder_path := pRoot, total_files := 1 }

/-- A job already in the terminal `COMPLETED` status. -/
def jobDone : BatchJob :=
  { id := "jd", folder_path := pRoot, status := BatchStatus.completed,
    total_files := 3, processed_files := 3, successful := 3 }

/-- A cancelled job one result away from its total. -/
def jobCancel : BatchJob :=
  { id := "jc", folder_path := pRoot, status := BatchStatus.cancelled,
    total_files := 1 }

/-- A cancelled job far from its total. -/
def jobCancelFar : BatchJob :=
  { id := "jc5", folder_path := pRoot, status := BatchStatus.cancelled,
    total_files := 5 }

/-- A filesystem whose directories all exist and contain no entries. -/
def fsEmpty : FileSystem :=
  { pathExists := fun _ => true, isDir := fun _ => true, isFile := fun _ => false,
    entries := fun _ => [], statSize := fun _ => none, accessErr := fun _ => none }

/-- A filesystem on which no path exists. -/
def fsMissing : FileSystem :=
  { pathExists := fun _ => false, isDir := fun _ => false, isFile := fun _ => false,
    entries := fun _ => [], statSize := fun _ => none, accessErr := fun _ => none }

/-- A filesystem on which every path exists but none is a directory. -/
def fsNotDir : FileSystem :=
  { pathExists := fun _ => true, isDir := fun _ => false, isFile := fun _ => true,
    entries := fun _ => [], statSize := fun _ => none, accessErr := fun _ => none }

/-- A one-file scan result below `root`, as the scenario of the spec uses:
`root/sub/a.heic`. -/
def srSample : ScanResult :=
  { root_path := pRoot, heic_files := [⟨["root", "sub", "a.heic"]⟩],
    total_files_scanned := 1,
    heic_by_directory := [(⟨["root", "sub"]⟩, 1)] }

/-- A scanned job over `srSample` with output root `O` and structure
preservation enabled. -/
def jobScanned : BatchJob :=
  { id := "s", folder_path := pRoot,
    output_dir := some ⟨["O"]⟩,
    scan_result := some srSample,
    total_files := 1 }

/-- The task `jobScanned` generates: `root/sub/a.heic` to `O/sub/a.jpg`. -/
def taskSample : ConversionTask :=
  { input_path := ⟨["root", "sub", "a.heic"]⟩,
    output_path := ⟨["O", "sub", "a.jpg"]⟩,
    quality := 85, delete_source := false, preserve_exif := true }

/-- A successful result shrinking 2 MiB to 1 MiB. -/
def resBig : ConversionResult :=
  { success := true, input_path := ⟨["a.heic"]⟩, output_path := some ⟨["a.jpg"]⟩,
    file_size_before := some 2097152, file_size_after := some 1048576 }

end Fixtures

section HelperLemmas

theorem if_some_eq {α : Type} {c : Bool} {v q : α}
    (h : (if c then some v else none) = some q) : c = true ∧ q = v := by
  cases c with
  | false => simp at h
  | true =>
      simp at h
      exact ⟨rfl, h.symm⟩

theorem optSizeTruthy_true {o : Option Nat} (h : optSizeTruthy o = true) :
    ∃ n, o = some n ∧ n ≠ 0 := by
  cases o with
  | none => simp [optSizeTruthy] at h
  | some n => exact ⟨n, rfl, by simpa [optSizeTruthy] using h⟩

theorem update_processed (job : BatchJob) (r : ConversionResult) :
    (update_job_progress job r).processed_files = job.processed_files + 1 := by
  unfold update_job_progress
  by_cases hs : r.success <;> simp [hs] <;> split <;> rfl

theorem update_successful (job : BatchJob) (r : ConversionResult) :
    (update_job_progress job r).successful =
      if r.success then job.successful + 1 else job.successful := by
  unfold update_job_progress
  by_cases hs : r.success <;> simp [hs] <;> split <;> rfl

theorem update_failed (job : BatchJob) (r : ConversionResult) :
    (update_job_progress job r).failed =
      if r.success then job.failed else job.failed + 1 := by
  unfold update_job_progress
  by_cases hs : r.success <;> simp [hs] <;> split <;> rfl

theorem update_results (job : BatchJob) (r : ConversionResult) :
    (update_job_progress job r).results = job.results ++ [r] := by
  unfold update_job_progress
  by_cases hs : r.success <;> simp [hs] <;> split <;> rfl

theorem update_total (job : BatchJob) (r : ConversionResult) :
    (update_job_progress job r).total_files = job.total_files := by
  unfold update_job_progress
  by_cases hs : r.success <;> simp [hs] <;> split <;> rfl

theorem update_status_or (job : BatchJob) (r : ConversionResult) :
    (update_job_progress job r).status = job.status ∨
      (update_job_progress job r).status = BatchStatus.completed := by
  unfold update_job_progress
  by_cases hs : r.success <;> simp [hs] <;> split <;> simp

theorem update_status_completed (job : BatchJob) (r : ConversionResult)
    (h : job.total_files ≤ job.processed_files + 1) :
    (update_job_progress job r).status = BatchStatus.completed := by
  unfold update_job_progress
  by_cases hs : r.success <;> simp [hs, h]

theorem update_status_stays (job : BatchJob) (r : ConversionResult)
    (h : ¬ job.total_files ≤ job.processed_files + 1) :
    (update_job_progress job r).status = job.status := by
  unfold update_job_progress
  by_cases hs : r.success <;> simp [hs, h]

theorem run_updates_nil (job : BatchJob) : run_updates job [] = job := rfl

theorem run_updates_cons (job : BatchJob) (r : ConversionResult)
    (rs : List ConversionResult) :
    run_updates job (r :: rs) = run_updates (update_job_progress job r) rs := rfl

theorem run_updates_processed (job : BatchJob) (rs : List ConversionResult) :
    (run_updates job rs).processed_files = job.processed_files + rs.length := by
  induction rs generalizing job with
  | nil => simp [run_updates_nil]
  | cons r rs ih =>
      rw [run_updates_cons, ih, update_processed, List.length_cons]
      omega

theorem run_updates_sum (job : BatchJob) (rs : List ConversionResult) :
    (run_updates job rs).successful + (run_updates job rs).failed =
      job.successful + job.failed + rs.length := by
  induction rs generalizing job with
  | nil => simp [run_updates_nil]
  | cons r rs ih =>
      rw [run_updates_cons, ih, update_successful, update_failed, List.length_cons]
      by_cases hs : r.success <;> simp [hs] <;> omega

theorem exceptMapM_nil {ε α β : Type} (g : α → Except ε β) :
    exceptMapM g [] = Except.ok [] := rfl

theorem exceptMapM_ok_length {ε α β : Type} (g : α → Except ε β)
    (xs : List α) (ys : List β) (h : exceptMapM g xs = Except.ok ys) :
    ys.length = xs.length := by
  induction xs generalizing ys with
  | nil =>
      rw [exceptMapM_nil] at h
      cases h
      rfl
  | cons x xs ih =>
      unfold exceptMapM at h
      cases hx : g x with
      | error e => rw [hx] at h; cases h
      | ok y =>
          rw [hx] at h
          cases hxs : exceptMapM g xs with
          | error e => rw [hxs] at h; cases h
          | ok ys2 =>
              rw [hxs] at h
              cases h
              simp [ih ys2 hxs]

theorem exceptMapM_ok_get {ε α β : Type} (g : α → Except ε β)
    (xs : List α) (ys : List β) (h : exceptMapM g xs = Except.ok ys)
    (i : Nat) (hx : i < xs.length) (hy : i < ys.length) :
    g (xs.get ⟨i, hx⟩) = Except.ok (ys.get ⟨i, hy⟩) := by
  induction xs generalizing ys i with
  | nil => cases hx
  | cons x xs ih =>
      unfold exceptMapM at h
      cases hxv : g x with
      | error e => rw [hxv] at h; cases h
      | ok y =>
          rw [hxv] at h
          cases hxs : exceptMapM g xs with
          | error e => rw [hxs] at h; cases h
          | ok ys2 =>
              rw [hxs] at h
              cases h
              cases i with
              | zero => simpa using hxv
              | succ j =>
                  have hx2 : j < xs.length := by simpa using hx
                  have hy2 : j < ys2.length := by simpa using hy
                  simpa using ih ys2 hxs j hx2 hy2

theorem exceptMapM_ok_mem {ε α β : Type} (g : α → Except ε β)
    (xs : List α) (ys : List β) (h : exceptMapM g xs = Except.ok ys)
    (y : β) (hy : y ∈ ys) : ∃ x, x ∈ xs ∧ g x = Except.ok y := by
  induction xs generalizing ys with
  | nil =>
      rw [exceptMapM_nil] at h
      cases h
      cases hy
  | cons x xs ih =>
      unfold exceptMapM at h
      cases hxv : g x with
      | error e => rw [hxv] at h; cases h
      | ok y2 =>
          rw [hxv] at h
          cases hxs : exceptMapM g xs with
          | error e => rw [hxs] at h; cases h
          | ok ys2 =>
              rw [hxs] at h
              cases h
              rcases List.mem_cons.mp hy with hy1 | hy2
              · exact ⟨x, List.mem_cons_self x xs, by rw [hxv, hy1]⟩
              · rcases ih ys2 hxs hy2 with ⟨x2, hx2, hgx2⟩
                exact ⟨x2, List.mem_cons_of_mem x hx2, hgx2⟩

theorem relParts_eq_drop (bs ps rs : List String)
    (h : relParts bs ps = some rs) : rs = ps.drop bs.length := by
  induction bs generalizing ps with
  | nil =>
      unfold relParts at h
      cases h
      rfl
  | cons b bs ih =>
      cases ps with
      | nil => cases h
      | cons q ps =>
          unfold relParts at h
          by_cases hb : b = q
          · rw [if_pos hb] at h
            simpa using ih ps h
          · rw [if_neg hb] at h
            cases h

theorem mkConversionTask_ok_iff (ip op : Path) (q : Int) (d pe : Bool) :
    (∃ t, mkConversionTask ip op q d pe = Except.ok t) ↔ 0 ≤ q ∧ q ≤ 100 := by
  unfold mkConversionTask
  by_cases hq : 0 ≤ q ∧ q ≤ 100 <;> simp [hq]

theorem mkConversionTask_ok_fields (ip op : Path) (q : Int) (d pe : Bool)
    (t : ConversionTask) (h : mkConversionTask ip op q d pe = Except.ok t) :
    t = ⟨ip, op, q, d, pe⟩ ∧ 0 ≤ q ∧ q ≤ 100 := by
  unfold mkConversionTask at h
  by_cases hq : 0 ≤ q ∧ q ≤ 100
  · rw [if_pos hq] at h
    cases h
    exact ⟨rfl, hq⟩
  · rw [if_neg hq] at h
    cases h

theorem taskFor_ok_quality (job : BatchJob) (f : Path) (t : ConversionTask)
    (h : taskFor job f = Except.ok t) : 0 ≤ t.quality ∧ t.quality ≤ 100 := by
  unfold taskFor at h
  cases hod : job.output_dir with
  | none =>
      rw [hod] at h
      rcases mkConversionTask_ok_fields _ _ _ _ _ _ h with ⟨ht, hq⟩
      rw [ht]
      exact hq
  | some od =>
      rw [hod] at h
      by_cases hp : job.preserve_folder_structure <;> simp only [hp] at h
      · cases hrel : f.parent.relative_to job.folder_path with
        | none => rw [hrel] at h; cases h
        | some rel =>
            rw [hrel] at h
            rcases mkConversionTask_ok_fields _ _ _ _ _ _ h with ⟨ht, hq⟩
            rw [ht]
            exact hq
      · rcases mkConversionTask_ok_fields _ _ _ _ _ _ h with ⟨ht, hq⟩
        rw [ht]
        exact hq

theorem generate_tasks_none (job : BatchJob) (h : job.scan_result = none) :
    generate_tasks job =
      Except.error ("Job " ++ job.id ++ " has not been scanned yet") := by
  unfold generate_tasks
  rw [h]

theorem generate_tasks_some (job : BatchJob) (sr : ScanResult)
    (hscan : job.scan_result = some sr) :
    generate_tasks job =
      match exceptMapM (taskFor { job with total_files := sr.heic_files.length })
          sr.heic_files with
      | Except.error e => Except.error e
      | Except.ok tasks =>
          Except.ok ({ job with total_files := sr.heic_files.length }, tasks) := by
  unfold generate_tasks
  rw [hscan]

theorem generate_tasks_ok_inv (job j2 : BatchJob) (tasks : List ConversionTask)
    (sr : ScanResult) (hscan : job.scan_result = some sr)
    (hgen : generate_tasks job = Except.ok (j2, tasks)) :
    j2 = { job with total_files := sr.heic_files.length } ∧
      exceptMapM (taskFor j2) sr.heic_files = Except.ok tasks := by
  rw [generate_tasks_some job sr hscan] at hgen
  cases hm : exceptMapM (taskFor { job with total_files := sr.heic_files.length })
      sr.heic_files with
  | error e => rw [hm] at hgen; cases hgen
  | ok ts =>
      rw [hm] at hgen
      cases hgen
      exact ⟨rfl, hm⟩

theorem generate_tasks_ok_scanned (job j2 : BatchJob)
    (tasks : List ConversionTask)
    (hgen : generate_tasks job = Except.ok (j2, tasks)) :
    ∃ sr, job.scan_result = some sr := by
  cases hs : job.scan_result with
  | none => rw [generate_tasks_none job hs] at hgen; cases hgen
  | some sr => exact ⟨sr, rfl⟩

theorem generate_tasks_restart (L : BatchJob) (sr : ScanResult)
    (tasks : List ConversionTask)
    (hscan : L.scan_result = some sr)
    (htot : L.total_files = sr.heic_files.length)
    (hmap : exceptMapM (taskFor L) sr.heic_files = Except.ok tasks) :
    generate_tasks L = Except.ok (L, tasks) := by
  have hL : ({ L with total_files := sr.heic_files.length } : BatchJob) = L := by
    rw [← htot]
  rw [generate_tasks_some L sr hscan, hL, hmap]

end HelperLemmas

/-- Claim C1, counterexample: the code does not guard terminal statuses. The
concrete cancelled job `jobCancel` (total 1, processed 0) is moved to
`COMPLETED` by `update_job_progress`, and `scan_job` leaves the terminal
`jobDone` in `QUEUED`; so it is false that no Batch Manager operation moves a
job out of a terminal status. -/
theorem update_progress_moves_cancelled_to_completed :
    jobCancel.status = BatchStatus.cancelled ∧
    (update_job_progress jobCancel res_ok).status = BatchStatus.completed ∧
    (update_job_progress jobCancel res_ok).status ≠ BatchStatus.cancelled ∧
    jobDone.status = BatchStatus.completed ∧
    ((scan_job fsEmpty jobDone).1).status = BatchStatus.queued := by
  refine ⟨rfl, rfl, ?_, rfl, rfl⟩
  decide

/-- Claim C1 (amended): `update_job_progress` preserves `COMPLETED`, and any
status change it makes sets `COMPLETED` (so a `CANCELLED` or `FAILED` job
whose processed counter reaches the total is moved to `COMPLETED`);
`scan_job`, when the scan succeeds, leaves every job — terminal or not — in
`QUEUED`. -/
theorem terminal_status_not_guarded (fs : FileSystem) (job : BatchJob)
    (r : ConversionResult) :
    (job.status = BatchStatus.completed →
      (update_job_progress job r).status = BatchStatus.completed) ∧
    ((update_job_progress job r).status = job.status ∨
      (update_job_progress job r).status = BatchStatus.completed) ∧
    (∀ j2 sr, scan_job fs job = (j2, Except.ok sr) →
      j2.status = BatchStatus.queued) := by
  refine ⟨?_, update_status_or job r, ?_⟩
  · intro h
    rcases update_status_or job r with h2 | h2
    · rw [h2, h]
    · exact h2
  · intro j2 sr h
    unfold scan_job at h
    cases hs : scan_directory fs job.folder_path with
    | error e => rw [hs] at h; simp at h
    | ok sr2 =>
        rw [hs] at h
        rw [Prod.mk.injEq] at h
        rw [← h.1]

/-- Witness for the amended C1 theorem at a concrete completed job and a
concrete filesystem. -/
theorem terminal_status_not_guarded_witness :
    (update_job_progress jobDone res_ok).status = BatchStatus.completed ∧
    ((scan_job fsEmpty jobDone).1).status = BatchStatus.queued := by
  constructor
  · exact (terminal_status_not_guarded fsEmpty jobDone res_ok).1 rfl
  · exact (terminal_status_not_guarded fsEmpty jobDone res_ok).2.2
      (scan_job fsEmpty jobDone).1 { root_path := pRoot } rfl

/-- Claim C2: `update_job_progress` bumps the processed counter by one, bumps
exactly one of successful/failed according to `result.success`, appends the
result, sets `COMPLETED` once the processed counter reaches the total
(independently of the failed counter), and never itself produces
`CANCELLED`. -/
theorem update_job_progress_spec (job : BatchJob) (r : ConversionResult) :
    (update_job_progress job r).processed_files = job.processed_files + 1 ∧
    (update_job_progress job r).successful =
      (if r.success then job.successful + 1 else job.successful) ∧
    (update_job_progress job r).failed =
      (if r.success then job.failed else job.failed + 1) ∧
    (update_job_progress job r).results = job.results ++ [r] ∧
    (job.total_files ≤ job.processed_files + 1 →
      (update_job_progress job r).status = BatchStatus.completed) ∧
    ((update_job_progress job r).status = BatchStatus.cancelled →
      job.status = BatchStatus.cancelled) := by
  refine ⟨update_processed job r, update_successful job r, update_failed job r,
    update_results job r, update_status_completed job r, ?_⟩
  intro h
  rcases update_status_or job r with h2 | h2
  · rw [← h2]; exact h
  · rw [h2] at h; exact absurd h (by decide)

/-- Witness for C2: a job one result from its total completes even on a
failed result, and a cancelled job far from its total shows the `CANCELLED`
status can only come from an earlier explicit cancellation. -/
theorem update_job_progress_spec_witness :
    (update_job_progress jobOne res_fail).status = BatchStatus.completed ∧
    jobCancelFar.status = BatchStatus.cancelled := by
  constructor
  · exact (update_job_progress_spec jobOne res_fail).2.2.2.2.1 (by decide)
  · exact (update_job_progress_spec jobCancelFar res_ok).2.2.2.2.2 (by decide)

/-- Claim C3: starting from zeroed counters, the processed counter is
monotonically non-decreasing along any sequence of `update_job_progress`
calls, and at every observation point it equals successful plus failed. -/
theorem progress_counters_invariant (job : BatchJob)
    (rs more : List ConversionResult)
    (h0 : job.processed_files = 0) (h1 : job.successful = 0)
    (h2 : job.failed = 0) :
    (run_updates job rs).processed_files ≤
      (run_updates job (rs ++ more)).processed_files ∧
    (run_updates job rs).processed_files =
      (run_updates job rs).successful + (run_updates job rs).failed := by
  constructor
  · rw [run_updates_processed, run_updates_processed, List.length_append]
    omega
  · have hp := run_updates_processed job rs
    have hs := run_updates_sum job rs
    omega

/-- Witness for C3 at a concrete zero-counter job and a two-result
sequence. -/
theorem progress_counters_invariant_witness :
    (run_updates jobZero [res_ok]).processed_files ≤
      (run_updates jobZero ([res_ok] ++ [res_fail])).processed_files ∧
    (run_updates jobZero [res_ok]).processed_files =
      (run_updates jobZero [res_ok]).successful +
        (run_updates jobZero [res_ok]).failed :=
  progress_counters_invariant jobZero [res_ok] [res_fail] rfl rfl rfl

/-- Claim C4: every task generated for a scanned job carries the output path
computed from the job settings — output root plus the file parent's path
relative to the source root when structure preservation is on, the bare
output root when it is off, the file's own parent when no output root is
set — and in every case the filename is the input's stem with the extension
replaced by `.jpg`. -/
theorem generate_tasks_output_path_spec (job j2 : BatchJob)
    (tasks : List ConversionTask) (sr : ScanResult) (i : Nat)
    (hscan : job.scan_result = some sr)
    (hgen : generate_tasks job = Except.ok (j2, tasks))
    (hi : i < sr.heic_files.length) (hti : i < tasks.length) :
    (tasks.get ⟨i, hti⟩).output_path =
      (match job.output_dir with
      | some od =>
          if job.preserve_folder_structure then
            Path.mk (od.parts ++
              (sr.heic_files.get ⟨i, hi⟩).parent.parts.drop
                job.folder_path.parts.length ++
              [(sr.heic_files.get ⟨i, hi⟩).stem ++ ".jpg"])
          else od.joinName ((sr.heic_files.get ⟨i, hi⟩).stem ++ ".jpg")
      | none =>
          (sr.heic_files.get ⟨i, hi⟩).parent.joinName
            ((sr.heic_files.get ⟨i, hi⟩).stem ++ ".jpg")) := by
  rcases generate_tasks_ok_inv job j2 tasks sr hscan hgen with ⟨hj2, hmap⟩
  have hg := exceptMapM_ok_get (taskFor j2) sr.heic_files tasks hmap i hi hti
  have hod : j2.output_dir = job.output_dir := by rw [hj2]
  have hpf : j2.preserve_folder_structure = job.preserve_folder_structure := by
    rw [hj2]
  have hfp : j2.folder_path = job.folder_path := by rw [hj2]
  unfold taskFor at hg
  rw [hod, hpf, hfp] at hg
  cases hodc : job.output_dir with
  | none =>
      simp only [hodc] at hg ⊢
      rcases mkConversionTask_ok_fields _ _ _ _ _ _ hg with ⟨hteq, _⟩
      rw [hteq]
      rfl
  | some od =>
      simp only [hodc] at hg ⊢
      cases hp : job.preserve_folder_structure with
      | false =>
          simp only [hp, Bool.false_eq_true, if_false] at hg ⊢
          rcases mkConversionTask_ok_fields _ _ _ _ _ _ hg with ⟨hteq, _⟩
          rw [hteq]
          rfl
      | true =>
          simp only [hp, if_true] at hg ⊢
          cases hrel : (sr.heic_files.get ⟨i, hi⟩).parent.relative_to
              job.folder_path with
          | none => rw [hrel] at hg; cases hg
          | some rel =>
              rw [hrel] at hg
              rcases mkConversionTask_ok_fields _ _ _ _ _ _ hg with ⟨hteq, _⟩
              have hrs : ∃ rs, relParts job.folder_path.parts
                  (sr.heic_files.get ⟨i, hi⟩).parent.parts = some rs ∧
                  rel = Path.mk rs := by
                unfold Path.relative_to at hrel
                cases hr : relParts job.folder_path.parts
                    (sr.heic_files.get ⟨i, hi⟩).parent.parts with
                | none => rw [hr] at hrel; cases hrel
                | some rs =>
                    rw [hr] at hrel
                    simp at hrel
                    exact ⟨rs, rfl, hrel.symm⟩
              rcases hrs with ⟨rs, hr, hre⟩
              have hdrop := relParts_eq_drop _ _ _ hr
              rw [hteq, hre, hdrop]
              rfl

/-- Witness for C4 at the spec scenario: `root/sub/a.heic` with output root
`O` and preservation on maps to `O/sub/a.jpg`. -/
theorem generate_tasks_output_path_spec_witness :
    taskSample.output_path = Path.mk ["O", "sub", "a.jpg"] := by
  have h := generate_tasks_output_path_spec jobScanned jobScanned [taskSample]
    srSample 0 rfl rfl (by decide) (by decide)
  exact h.trans (by decide)

/-- Claim C5: task construction succeeds exactly when the quality lies in
the integer range 0 to 100, and every task the batch generator yields has
its quality in that range. -/
theorem conversion_task_quality_range (ip op : Path) (q : Int) (d pe : Bool) :
    ((∃ t, mkConversionTask ip op q d pe = Except.ok t) ↔ 0 ≤ q ∧ q ≤ 100) ∧
    (∀ job j2 tasks t, generate_tasks job = Except.ok (j2, tasks) →
      t ∈ tasks → 0 ≤ t.quality ∧ t.quality ≤ 100) := by
  refine ⟨mkConversionTask_ok_iff ip op q d pe, ?_⟩
  intro job j2 tasks t hgen hmem
  rcases generate_tasks_ok_scanned job j2 tasks hgen with ⟨sr, hscan⟩
  rcases generate_tasks_ok_inv job j2 tasks sr hscan hgen with ⟨hj2, hmap⟩
  rcases exceptMapM_ok_mem (taskFor j2) sr.heic_files tasks hmap t hmem with
    ⟨f, _, hok⟩
  exact taskFor_ok_quality j2 f t hok

/-- Witness for C5: quality 85 is accepted, and the concrete generated task
stays in range. -/
theorem conversion_task_quality_range_witness :
    (∃ t, mkConversionTask pRoot pRoot 85 false true = Except.ok t) ∧
    0 ≤ taskSample.quality ∧ taskSample.quality ≤ 100 := by
  constructor
  · exact (conversion_task_quality_range pRoot pRoot 85 false true).1.mpr
      (by decide)
  · exact (conversion_task_quality_range pRoot pRoot 85 false true).2 jobScanned
      jobScanned [taskSample] taskSample rfl (by simp)

/-- Claim C6: scanning a missing root yields the not-found error, scanning a
non-directory root yields the not-a-directory error, and in both cases no
`ScanResult` is produced. -/
theorem scan_directory_error_spec (fs : FileSystem) (d : Path) :
    (fs.pathExists d = false →
      scan_directory fs d =
        Except.error (ScanError.notFound ("Directory not found: " ++ pathStr d))) ∧
    (fs.pathExists d = true → fs.isDir d = false →
      scan_directory fs d =
        Except.error
          (ScanError.notADirectory ("Not a directory: " ++ pathStr d))) ∧
    ((fs.pathExists d = false ∨ fs.isDir d = false) →
      ∀ sr, scan_directory fs d ≠ Except.ok sr) := by
  unfold scan_directory
  refine ⟨?_, ?_, ?_⟩
  · intro h; simp [h]
  · intro h1 h2; simp [h1, h2]
  · intro h sr
    rcases h with h | h
    · simp [h]
    · cases he : fs.pathExists d <;> simp [he, h]

/-- Witness for C6 on two concrete filesystems. -/
theorem scan_directory_error_spec_witness :
    scan_directory fsMissing pRoot =
      Except.error (ScanError.notFound ("Directory not found: " ++ pathStr pRoot)) ∧
    scan_directory fsNotDir pRoot =
      Except.error
        (ScanError.notADirectory ("Not a directory: " ++ pathStr pRoot)) :=
  ⟨(scan_directory_error_spec fsMissing pRoot).1 rfl,
   (scan_directory_error_spec fsNotDir pRoot).2.1 rfl rfl⟩

/-- Claim C7, counterexample: for a successful result with known sizes
2097152 and 1048576 bytes, the space-saved property is `1` — the difference
expressed in megabytes — not the byte difference `1048576` the claim
states. -/
theorem size_saved_not_byte_difference :
    resBig.size_saved_mb = some 1 ∧
    resBig.size_saved_mb ≠ some ((2097152 : ℚ) - (1048576 : ℚ)) := by
  constructor
  · simp [ConversionResult.size_saved_mb, resBig, optSizeTruthy]
    norm_num
  · simp [ConversionResult.size_saved_mb, resBig, optSizeTruthy]
    norm_num

/-- Claim C7 (amended): both derived properties are absent unless the result
is successful and both byte sizes are known (and nonzero, zero being treated
as unknown); when defined, the compression ratio is size-after divided by
size-before, and the space-saved property is the difference size-before
minus size-after expressed in megabytes, that is divided by 1024 times
1024. -/
theorem conversion_result_derived_spec (r : ConversionResult) :
    (∀ q, r.compression_ratio = some q →
      r.success = true ∧ ∃ b a, r.file_size_before = some b ∧
        r.file_size_after = some a ∧ q = (a : ℚ) / (b : ℚ)) ∧
    (∀ q, r.size_saved_mb = some q →
      r.success = true ∧ ∃ b a, r.file_size_before = some b ∧
        r.file_size_after = some a ∧
        q = ((b : ℚ) - (a : ℚ)) / (1024 * 1024)) := by
  constructor
  · intro q hq
    unfold ConversionResult.compression_ratio at hq
    rcases if_some_eq hq with ⟨hc, hv⟩
    rw [Bool.and_eq_true, Bool.and_eq_true] at hc
    rcases hc with ⟨⟨hs, hb⟩, ha⟩
    rcases optSizeTruthy_true hb with ⟨b, hbe, _⟩
    rcases optSizeTruthy_true ha with ⟨a, hae, _⟩
    refine ⟨hs, b, a, hbe, hae, ?_⟩
    rw [hbe, hae] at hv
    simpa using hv
  · intro q hq
    unfold ConversionResult.size_saved_mb at hq
    rcases if_some_eq hq with ⟨hc, hv⟩
    rw [Bool.and_eq_true, Bool.and_eq_true] at hc
    rcases hc with ⟨⟨hs, hb⟩, ha⟩
    rcases optSizeTruthy_true hb with ⟨b, hbe, _⟩
    rcases optSizeTruthy_true ha with ⟨a, hae, _⟩
    refine ⟨hs, b, a, hbe, hae, ?_⟩
    rw [hbe, hae] at hv
    simpa using hv

/-- Witness for the amended C7 theorem at the concrete successful result. -/
theorem conversion_result_derived_spec_witness :
    resBig.success = true ∧ ∃ b a, resBig.file_size_before = some b ∧
      resBig.file_size_after = some a ∧
      ((2097152 : ℚ) - (1048576 : ℚ)) / (1024 * 1024) =
        ((b : ℚ) - (a : ℚ)) / (1024 * 1024) :=
  (conversion_result_derived_spec resBig).2
    (((2097152 : ℚ) - (1048576 : ℚ)) / (1024 * 1024))
    (by simp [ConversionResult.size_saved_mb, resBig, optSizeTruthy])

/-- Claim C8: a scanned job generates exactly `total_files` tasks, one per
eligible file; the count is stable across repeated invocations; and a job
without a scan result makes the generator fail. -/
theorem generate_tasks_count_spec (job j2 : BatchJob)
    (tasks : List ConversionTask) (sr : ScanResult)
    (hscan : job.scan_result = some sr)
    (htot : job.total_files = sr.heic_count)
    (hgen : generate_tasks job = Except.ok (j2, tasks)) :
    tasks.length = job.total_files ∧
    tasks.length = j2.total_files ∧
    generate_tasks j2 = Except.ok (j2, tasks) ∧
    (∀ jb : BatchJob, jb.scan_result = none →
      generate_tasks jb =
        Except.error ("Job " ++ jb.id ++ " has not been scanned yet")) := by
  rcases generate_tasks_ok_inv job j2 tasks sr hscan hgen with ⟨hj2, hmap⟩
  have hlen := exceptMapM_ok_length (taskFor j2) sr.heic_files tasks hmap
  have hscan2 : j2.scan_result = some sr := by rw [hj2]; exact hscan
  have htot2 : j2.total_files = sr.heic_files.length := by rw [hj2]
  refine ⟨?_, ?_, ?_, ?_⟩
  · rw [hlen, htot]; rfl
  · rw [hlen]; exact htot2.symm
  · exact generate_tasks_restart j2 sr tasks hscan2 htot2 hmap
  · intro jb h
    exact generate_tasks_none jb h

/-- Witness for C8 at the concrete scanned one-file job. -/
theorem generate_tasks_count_spec_witness :
    ([taskSample] : List ConversionTask).length = jobScanned.total_files ∧
    generate_tasks jobScanned = Except.ok (jobScanned, [taskSample]) := by
  have h := generate_tasks_count_spec jobScanned jobScanned [taskSample]
    srSample rfl rfl rfl
  exact ⟨h.1, h.2.2.1⟩

/-- Claim C9: a worker that observes the stop flag before the adapter runs
returns a failure result with the distinguishable stopped message, carrying
the task's input path, and does not invoke the adapter (the outcome does not
depend on the adapter at all, and the invocation flag is false); without the
stop flag the adapter's own result is returned. -/
theorem worker_stopped_result_spec
    (convert : ConversionTask → ConversionResult) (task : ConversionTask) :
    process_task_with_pause true convert task = (stoppedResult task, false) ∧
    (stoppedResult task).success = false ∧
    (stoppedResult task).error = some "Processing stopped by user" ∧
    (stoppedResult task).input_path = task.input_path ∧
    (process_task_with_pause false convert task).1 = convert task :=
  ⟨rfl, rfl, rfl, rfl, rfl⟩

/-- Claim C10: for a scanned job, `generate_tasks` overwrites `total_files`
with the length of the scanned file list and changes no other field of the
job. -/
theorem generate_tasks_frame_spec (job j2 : BatchJob)
    (tasks : List ConversionTask) (sr : ScanResult)
    (hscan : job.scan_result = some sr)
    (hgen : generate_tasks job = Except.ok (j2, tasks)) :
    j2.total_files = sr.heic_files.length ∧
    j2 = { job with total_files := sr.heic_files.length } ∧
    j2.id = job.id ∧ j2.folder_path = job.folder_path ∧
    j2.status = job.status ∧ j2.output_dir = job.output_dir ∧
    j2.scan_result = job.scan_result ∧
    j2.processed_files = job.processed_files ∧
    j2.successful = job.successful ∧ j2.failed = job.failed ∧
    j2.quality = job.quality ∧ j2.delete_source = job.delete_source ∧
    j2.preserve_exif = job.preserve_exif ∧
    j2.preserve_folder_structure = job.preserve_folder_structure ∧
    j2.results = job.results := by
  rcases generate_tasks_ok_inv job j2 tasks sr hscan hgen with ⟨hj2, _⟩
  subst hj2
  exact ⟨rfl, rfl, rfl, rfl, rfl, rfl, rfl, rfl, rfl, rfl, rfl, rfl, rfl, rfl,
    rfl⟩

/-- Witness for C10 at the concrete scanned one-file job. -/
theorem generate_tasks_frame_spec_witness :
    jobScanned.total_files = srSample.heic_files.length ∧
    jobScanned.status = jobScanned.status :=
  ⟨(generate_tasks_frame_spec jobScanned jobScanned [taskSample] srSample
      rfl rfl).1,
   (generate_tasks_frame_spec jobScanned jobScanned [taskSample] srSample
      rfl rfl).2.2.2.2.1⟩

end HEIC
